import Mathlib

/-
Verification of the page-state detection and login-progression logic of
`aws_login_headless_playwright.py` (function `aws_sso_login` and entry point
`main`).

The embedding is a shallow one.  The browser automation capability is the
environment: an `Env` value fixes, for one run, everything the external world
gives in answer to the queries of the script — the page URL as sampled at each read site,
the DOM input fields and submit controls visible to the selector queries, the
frame list, and, for every collaborator call the source wraps in a
`try`/`except PlaywrightTimeout` (or in the outermost `except Exception`),
a Boolean fault flag saying whether that call raises.

Running the body produces a `RunOut`: the list of human-readable output lines
(stdout and stderr merged, in order), the list of `PageAction`s issued to the
browser (fill / click / key press — each recorded at the moment the call is
made, whether or not it completes), and either `Except.ok result` or
`Except.error ()` for an exception escaping to the outermost handler.

Notes on fidelity:
* The Python `str.lower()` is modelled by `lowerStr` (per-character `toLower`;
  the URLs involved are ASCII).
* The Python `needle in hay` substring test is modelled by `strContains`.
* CSS selector strings are kept as labels without the inner quotes
  (`input[name=password]` for the quoted original), which is the
  equivalent unquoted CSS form.
* The four success-indicator `wait_for_selector` calls all behave identically
  (print the same line and return `True` on the first hit), so the
  environment records a single flag `successAppears` = "some success
  indicator appeared within its wait window".
* Playwright `locator(...).count()` counts matching elements regardless of
  visibility; `:has-text(...)` is a case-insensitive substring match.
-/

/-! ## String machinery -/

/-- `isPrefixC n h`: the character list `n` is a prefix of `h`. -/
def isPrefixC : List Char → List Char → Bool
  | [], _ => true
  | _ :: _, [] => false
  | a :: as, b :: bs => a == b && isPrefixC as bs

/-- `containsSub h n`: the character list `n` occurs contiguously inside `h`
(the Python `n in h`). -/
def containsSub : List Char → List Char → Bool
  | [], n => n.isEmpty
  | c :: t, n => isPrefixC n (c :: t) || containsSub t n

/-- The Python `needle in hay` on strings. -/
def strContains (hay needle : String) : Bool :=
  containsSub hay.data needle.data

/-- The Python `str.lower()` (ASCII-adequate). -/
def lowerStr (s : String) : String :=
  String.mk (s.data.map Char.toLower)

/-! ## Data model -/

/-- One `<input>` element as seen by the attribute-predicate selectors.
Absent attributes are modelled as `""`. -/
structure InputField where
  ty : String
  name : String
  id : String
  placeholder : String
  ariaLabel : String
  className : String
  visible : Bool

/-- One candidate submit control (`<button>` or `<input>`), as seen by the
submit-selector queries. -/
structure SubmitControl where
  tag : String
  ty : String
  text : String

/-- A call issued to the browser automation capability that acts on the page:
`page.fill(selector, value)`, `page.click(selector)`,
`page.keyboard.press(key)`. -/
inductive PageAction where
  | fill (selector : String) (value : String)
  | click (selector : String)
  | press (key : String)
deriving DecidableEq

/-- The environment of one run: the inputs of the script plus every answer the
browser automation capability gives.  URL fields are per-read-site samples
(the page can navigate between reads):
`url0` is `page.url` at the Okta checks (source lines 103/107), `url` is
`page.url` from the redirect re-check onward (lines 128, 145–147, 199),
`finalUrl` is `page.url` after the post-submit network-idle wait (line 284).
Fault flags correspond to the `try`/`except` sites of the source;
`xxxFaults` lists are indexed by selector-candidate position. -/
structure Env where
  verificationUrl : String
  url0 : String
  url : String
  finalUrl : String
  pageTitle : String
  inputs : List InputField
  controls : List SubmitControl
  frames : List String
  username : Option String
  password : String
  headless : Bool
  navFault : Bool
  oktaWaitTimeout : Bool
  formWaitTimeout : Bool
  userFillFaults : List Bool
  pwdFillFaults : List Bool
  clickFaults : List Bool
  titleFault : Bool
  inputEnumFault : Bool
  attrFaults : List Bool
  frameEnumFault : Bool
  successAppears : Bool
  netIdleTimeout : Bool

/-- Outcome of the body of `aws_sso_login` (inside the outermost
`try`): output lines, page actions issued, and the returned Boolean or an
escaped exception. -/
structure RunOut where
  out : List String
  actions : List PageAction
  result : Except Unit Bool

/-! ## Selector candidate lists (source lines 154–160, 173–181, 238–245) -/

/-- `username_selectors`. -/
def usernameSelectors : List (String × (InputField → Bool)) :=
  [("input[name=username]", fun f => f.name == "username"),
   ("input[name=email]", fun f => f.name == "email"),
   ("input[type=email]", fun f => f.ty == "email"),
   ("input[id=username]", fun f => f.id == "username"),
   ("input[id=email]", fun f => f.id == "email")]

/-- `password_selectors`.  The two `placeholder*=... i` entries differ only in
only in letter case, which the CSS `i` flag erases, so their predicates
coincide. -/
def passwordSelectors : List (String × (InputField → Bool)) :=
  [("input[name=password]", fun f => f.name == "password"),
   ("input[type=password]", fun f => f.ty == "password"),
   ("input[id=password]", fun f => f.id == "password"),
   ("input[id=passwordInput]", fun f => f.id == "passwordInput"),
   ("input[placeholder*=password i]", fun f => strContains (lowerStr f.placeholder) "password"),
   ("input[placeholder*=Password i]", fun f => strContains (lowerStr f.placeholder) "password"),
   ("input[aria-label*=password i]", fun f => strContains (lowerStr f.ariaLabel) "password")]

/-- `submit_selectors` (`:has-text` is a case-insensitive substring match). -/
def submitSelectors : List (String × (SubmitControl → Bool)) :=
  [("button[type=submit]", fun c => c.tag == "button" && c.ty == "submit"),
   ("input[type=submit]", fun c => c.tag == "input" && c.ty == "submit"),
   ("button:has-text(Sign in)", fun c => c.tag == "button" && strContains (lowerStr c.text) "sign in"),
   ("button:has-text(Sign In)", fun c => c.tag == "button" && strContains (lowerStr c.text) "sign in"),
   ("button:has-text(Login)", fun c => c.tag == "button" && strContains (lowerStr c.text) "login"),
   ("button:has-text(Continue)", fun c => c.tag == "button" && strContains (lowerStr c.text) "continue")]

/-! ## Stage classification (source lines 144–147) -/

/-- `page.locator("input[type=password]").count()` — all matching elements,
visible or not. -/
def passwordTypeCount (inputs : List InputField) : Nat :=
  (inputs.filter (fun f => f.ty == "password")).length

/-- Source lines 145–147:
`needs_authentication = count > 0 or "okta.com/signin" in url.lower() or
"login" in url.lower()`. -/
def needsAuthentication (e : Env) : Bool :=
  decide (0 < passwordTypeCount e.inputs)
  || strContains (lowerStr e.url) "okta.com/signin"
  || strContains (lowerStr e.url) "login"

/-! ## Fill and submit loops (source lines 162–191, 247–260) -/

/-- The username loop (lines 163–170): first candidate with `count() > 0` is
filled; a `PlaywrightTimeout` from the fill call (fault flag for that
position of that candidate) is caught and the loop continues. -/
def usernameFillLoop (inputs : List InputField) (uname : String) :
    List (String × (InputField → Bool)) → List Bool → List String × List PageAction
  | [], _ => ([], [])
  | (nm, p) :: rest, fs =>
    if 0 < (inputs.filter p).length then
      if fs.headD false then
        let r := usernameFillLoop inputs uname rest fs.tail
        (("Filling username: " ++ uname) :: r.1, PageAction.fill nm uname :: r.2)
      else
        ([("Filling username: " ++ uname)], [PageAction.fill nm uname])
    else
      usernameFillLoop inputs uname rest fs.tail

/-- The password loop (lines 183–191); the final Boolean is `password_filled`. -/
def passwordFillLoop (inputs : List InputField) (pwd : String) :
    List (String × (InputField → Bool)) → List Bool → List String × List PageAction × Bool
  | [], _ => ([], [], false)
  | (nm, p) :: rest, fs =>
    if 0 < (inputs.filter p).length then
      if fs.headD false then
        let r := passwordFillLoop inputs pwd rest fs.tail
        (("Found password field with selector: " ++ nm) :: r.1,
         PageAction.fill nm pwd :: r.2.1, r.2.2)
      else
        ([("Found password field with selector: " ++ nm)],
         [PageAction.fill nm pwd], true)
    else
      passwordFillLoop inputs pwd rest fs.tail

/-- The submit-click loop (lines 248–256); the final Boolean is `submitted`. -/
def submitClickLoop (controls : List SubmitControl) :
    List (String × (SubmitControl → Bool)) → List Bool → List String × List PageAction × Bool
  | [], _ => ([], [], false)
  | (nm, p) :: rest, fs =>
    if 0 < (controls.filter p).length then
      if fs.headD false then
        let r := submitClickLoop controls rest fs.tail
        ("Submitting login form" :: r.1, PageAction.click nm :: r.2.1, r.2.2)
      else
        (["Submitting login form"], [PageAction.click nm], true)
    else
      submitClickLoop controls rest fs.tail

/-- Lines 162–191: optional username fill (the Python `if username:` treats an
empty string like `None`), then the password loop.  Returns
(output, actions, `password_filled`). -/
def fillPhase (e : Env) : List String × List PageAction × Bool :=
  let u := e.username.getD ""
  let uPart := if u == "" then ([], [])
               else usernameFillLoop e.inputs u usernameSelectors e.userFillFaults
  let pPart := passwordFillLoop e.inputs e.password passwordSelectors e.pwdFillFaults
  (uPart.1 ++ pPart.1, uPart.2 ++ pPart.2.1, pPart.2.2)

/-- Lines 247–260: submit-click loop, then the Enter-key fallback when no
click completed. -/
def submitPhase (e : Env) : List String × List PageAction :=
  let r := submitClickLoop e.controls submitSelectors e.clickFaults
  if r.2.2 then (r.1, r.2.1)
  else (r.1 ++ ["Warning: Could not find submit button, trying Enter key"],
        r.2.1 ++ [PageAction.press "Enter"])

/-! ## Diagnostic dump (source lines 196–227) -/

/-- One line of the input-field dump (line 213); the Python `x or default`
yields the default on an empty attribute. -/
def inputDumpLine (i : Nat) (f : InputField) : String :=
  "  [" ++ toString i ++ "] type=" ++ (if f.ty == "" then "text" else f.ty)
  ++ ", name=" ++ (if f.name == "" then "(no name)" else f.name)
  ++ ", id=" ++ (if f.id == "" then "(no id)" else f.id)
  ++ ", placeholder=" ++ (if f.placeholder == "" then "(no placeholder)" else f.placeholder)
  ++ ", class=" ++ (if f.className == "" then "(no class)" else f.className)
  ++ ", visible=" ++ toString f.visible

/-- Lines 205–215: per-input dump; a fault while reading the
attributes of one input is swallowed by the inner `except Exception: pass`, dropping just
that line. -/
def inputDumpLines (inputs : List InputField) (faults : List Bool) : List String :=
  inputs.enum.filterMap (fun iv =>
    if faults.getD iv.1 false then none else some (inputDumpLine iv.1 iv.2))

/-- Lines 202–227: the two enumeration blocks, each under its own
`try`/`except Exception` that converts a fault into a single message line. -/
def diagDump (e : Env) : List String :=
  ["\nDebug - Input fields found on page:"] ++
  (if e.inputEnumFault then ["Could not enumerate input fields: (error)"]
   else inputDumpLines e.inputs e.attrFaults) ++
  ["\nDebug - Checking for iframes:"] ++
  (if e.frameEnumFault then ["Could not enumerate frames: (error)"]
   else ("  Found " ++ toString e.frames.length ++ " frame(s)") ::
        e.frames.enum.map (fun iu => "  Frame [" ++ toString iu.1 ++ "]: " ++ iu.2))

/-- Lines 197–227: the whole could-not-find-password-field report
(after `page.title()` succeeded). -/
def notFoundOut (e : Env) : List String :=
  ["Warning: Could not find password field",
   "Page title: " ++ e.pageTitle,
   "Page URL: " ++ e.url] ++ diagDump e

/-! ## Okta branch (source lines 103–142) — output only -/

/-- Lines 103–142: the Okta / SAML detection branch.  It issues no page
actions; its waits (`wait_for_function`, `wait_for_selector`) catch their own
timeouts, so it only contributes output lines. -/
def oktaLines (e : Env) : List String :=
  if strContains e.url0 "okta.com" then
    "Detected Okta login page" ::
    (if strContains e.url0 "/sso/saml" then
      "On SAML endpoint - checking if auto-redirect is happening..." ::
      (if e.oktaWaitTimeout then
        ["Warning: No form appeared and no redirect after 10 seconds"]
      else if !(strContains e.url "/sso/saml") then
        ["Auto-redirect detected - already authenticated to Okta",
         "Redirected to: " ++ e.url]
      else
        ["Login form appeared"])
    else
      "Waiting for login form..." ::
      (if e.formWaitTimeout then
        ["Warning: Login form did not appear after 8 seconds"]
      else []))
  else
    []

/-! ## Confirmation phase (source lines 262–299) -/

/-- Lines 262–299: the success-indicator waits (own timeouts caught), then
the network-idle wait (a timeout here escapes to the
`except PlaywrightTimeout` at line 296), then the final URL check. -/
def confirmPhase (e : Env) : List String × Bool :=
  if e.successAppears then
    (["Waiting for authentication to complete...",
      "✓ Authentication successful!"], true)
  else if e.netIdleTimeout then
    (["Waiting for authentication to complete...",
      "✗ Timeout waiting for authentication confirmation"], false)
  else if !(strContains (lowerStr e.finalUrl) "signin")
          && !(strContains (lowerStr e.finalUrl) "login") then
    (["Waiting for authentication to complete...",
      "Final URL: " ++ e.finalUrl,
      "✓ Authentication appears successful (navigated away from login page)"], true)
  else
    (["Waiting for authentication to complete...",
      "Final URL: " ++ e.finalUrl,
      "✗ Could not confirm authentication success"], false)

/-! ## The body of `aws_sso_login` (source lines 78–299) -/

/-- The body of `aws_sso_login` inside the outermost `try`.
`navFault` covers a fault in `page.goto` / the initial load-state wait
(lines 94–100): it escapes to the outermost handler.
`titleFault` covers `page.title()` at line 198, which is *not* under a local
`try` and likewise escapes. -/
def bodyRun (e : Env) : RunOut :=
  if e.navFault then
    ⟨["Navigating to: " ++ e.verificationUrl], [], Except.error ()⟩
  else
    let pre := ("Navigating to: " ++ e.verificationUrl) :: oktaLines e
    if needsAuthentication e then
      let fp := fillPhase e
      if fp.2.2 then
        let sp := submitPhase e
        let cp := confirmPhase e
        ⟨pre ++ fp.1 ++ sp.1 ++ cp.1, fp.2.1 ++ sp.2, Except.ok cp.2⟩
      else if e.titleFault then
        ⟨pre ++ fp.1 ++ ["Warning: Could not find password field"], fp.2.1,
         Except.error ()⟩
      else if e.headless then
        ⟨pre ++ fp.1 ++ notFoundOut e, fp.2.1, Except.ok false⟩
      else
        ⟨pre ++ fp.1 ++ notFoundOut e ++ ["Press Enter after manually logging in..."],
         fp.2.1, Except.ok true⟩
    else
      let cp := confirmPhase e
      ⟨pre ++ ["Skipping authentication - appears to be already authenticated"] ++ cp.1,
       [], Except.ok cp.2⟩

/-- `aws_sso_login`: the outermost `except Exception` (lines 301–303)
converts any escaped exception into the failure value. -/
def aws_sso_login (e : Env) : Bool :=
  match (bodyRun e).result with
  | Except.ok b => b
  | Except.error _ => false

/-- All output lines of a run, the error line of the outermost handler
included. -/
def runOutput (e : Env) : List String :=
  match (bodyRun e).result with
  | Except.ok _ => (bodyRun e).out
  | Except.error _ => (bodyRun e).out ++ ["✗ Error during authentication: (error)"]

/-- All page actions issued during a run. -/
def runActions (e : Env) : List PageAction :=
  (bodyRun e).actions

/-- `main` (lines 306–321): exit code 0 on success, 1 otherwise. -/
def mainExitCode (e : Env) : Nat :=
  if aws_sso_login e then 0 else 1

/-! ## Action classifiers -/

/-- The labels of the password selector candidates. -/
def pwdSelectorNames : List String :=
  passwordSelectors.map Prod.fst

/-- Is this action a fill? -/
def isFill : PageAction → Bool
  | PageAction.fill _ _ => true
  | _ => false

/-- Is this action a password fill (a fill through one of the password
selector candidates)? -/
def isPwdFill : PageAction → Bool
  | PageAction.fill nm _ => pwdSelectorNames.contains nm
  | _ => false

/-- Is this action a submit action (a click or a key press)? -/
def isSubmitAct : PageAction → Bool
  | PageAction.click _ => true
  | PageAction.press _ => true
  | _ => false

/-- Blank out the value of every password fill, for comparing the remaining
actions of a run across different secrets. -/
def redactSecret : PageAction → PageAction
  | PageAction.fill nm v =>
    if pwdSelectorNames.contains nm then PageAction.fill nm "" else PageAction.fill nm v
  | a => a

/-! ## Concrete environments used by witnesses and counterexamples -/

/-- A benign environment: the verification URL already redirected to a
non-Okta, non-login page with no form; no faults anywhere. -/
def plainEnv : Env where
  verificationUrl := "https://device.sso.us-east-1.amazonaws.com/?user_code=ABCD-EFGH"
  url0 := "https://d-1234.awsapps.com/start/device"
  url := "https://d-1234.awsapps.com/start/device"
  finalUrl := "https://d-1234.awsapps.com/start/device"
  pageTitle := "AWS access portal"
  inputs := []
  controls := []
  frames := []
  username := none
  password := "hunter2"
  headless := true
  navFault := false
  oktaWaitTimeout := false
  formWaitTimeout := false
  userFillFaults := []
  pwdFillFaults := []
  clickFaults := []
  titleFault := false
  inputEnumFault := false
  attrFaults := []
  frameEnumFault := false
  successAppears := false
  netIdleTimeout := false

/-- A visible password input of type `password` named `pass`. -/
def pwField : InputField := ⟨"password", "pass", "", "", "", "", true⟩

/-- A visible text input named `password` (matches `input[name=password]` but
not `input[type=password]`). -/
def namedPwField : InputField := ⟨"text", "password", "", "", "", "", true⟩

/-- A hidden input named `password` of type `hidden`: matched by
`input[name=password]`, but a fill on it times out waiting for
actionability. -/
def hiddenNamedPw : InputField := ⟨"hidden", "password", "", "", "", "", false⟩

def wC2env : Env := { plainEnv with inputs := [pwField] }

/-- Both `input[name=password]` (a hidden input) and `input[type=password]`
(the real field) match; the fill on the first candidate times out. -/
def xC3env : Env :=
  { plainEnv with
    inputs := [hiddenNamedPw, pwField]
    pwdFillFaults := [true] }

def wC3env : Env := { plainEnv with inputs := [namedPwField, pwField] }

def wC4env : Env :=
  { plainEnv with
    inputs := [pwField]
    finalUrl := "https://example.okta.com/signin/verify" }

/-- Already authenticated (no form, non-login URL), but the post-submit
network-idle wait times out. -/
def xC5env : Env := { plainEnv with netIdleTimeout := true }

def xC6env : Env := { plainEnv with navFault := true }

/-- Visible-mode run on a login URL where no password candidate matches. -/
def xC7env : Env :=
  { plainEnv with
    headless := false
    url0 := "https://idp.example.com/login"
    url := "https://idp.example.com/login"
    finalUrl := "https://idp.example.com/login" }

/-- The submit click on `button[type=submit]` times out; no other submit
candidate matches, so the Enter fallback fires as well. -/
def xC8env : Env :=
  { plainEnv with
    inputs := [pwField]
    controls := [⟨"button", "submit", "OK"⟩]
    clickFaults := [true] }

def wC8env : Env :=
  { plainEnv with
    inputs := [pwField]
    controls := [⟨"button", "submit", "OK"⟩] }

def wC9env : Env := { plainEnv with password := "a-different-secret" }

/-- Headless run on a login URL with no password candidate: the
could-not-find-password-field diagnostic path. -/
def wC10env : Env :=
  { plainEnv with
    url0 := "https://idp.example.com/login"
    url := "https://idp.example.com/login" }

/-! ## Lemmas: substring machinery -/

theorem isPrefixC_iff (n : List Char) :
    ∀ (h : List Char), isPrefixC n h = true ↔ ∃ t, h = n ++ t := by
  induction n with
  | nil =>
    intro h
    simp [isPrefixC]
  | cons a as ih =>
    intro h
    cases h with
    | nil => simp [isPrefixC]
    | cons b bs =>
      simp only [isPrefixC, Bool.and_eq_true, beq_iff_eq, List.cons_append,
        List.cons.injEq, ih bs]
      constructor
      · rintro ⟨rfl, t, rfl⟩
        exact ⟨t, rfl, rfl⟩
      · rintro ⟨t, rfl, rfl⟩
        exact ⟨rfl, t, rfl⟩

theorem containsSub_iff (n h : List Char) :
    containsSub h n = true ↔ ∃ p q, h = p ++ n ++ q := by
  induction h with
  | nil =>
    simp only [containsSub, List.isEmpty_iff]
    constructor
    · rintro rfl
      exact ⟨[], [], rfl⟩
    · rintro ⟨p, q, hpq⟩
      rcases List.append_eq_nil.mp hpq.symm with ⟨hpn, -⟩
      exact (List.append_eq_nil.mp hpn).2
  | cons c t ih =>
    simp only [containsSub, Bool.or_eq_true, isPrefixC_iff, ih]
    constructor
    · rintro (⟨s, hs⟩ | ⟨p, q, rfl⟩)
      · exact ⟨[], s, by simpa using hs⟩
      · exact ⟨c :: p, q, by simp⟩
    · rintro ⟨p, q, hpq⟩
      cases p with
      | nil =>
        exact Or.inl ⟨q, by simpa using hpq⟩
      | cons x xs =>
        simp only [List.cons_append, List.cons.injEq] at hpq
        exact Or.inr ⟨xs, q, hpq.2⟩

/-- Substring containment is antitone in a suffix of the needle: if `a ++ b`
occurs in `h` then so does `b`. -/
theorem containsSub_append_right (h a b : List Char)
    (hc : containsSub h (a ++ b) = true) : containsSub h b = true := by
  rw [containsSub_iff] at hc ⊢
  rcases hc with ⟨p, q, rfl⟩
  exact ⟨p ++ a, q, by simp⟩

/-- A URL containing `okta.com/signin` contains `signin`. -/
theorem strContains_signin_of_okta (s : String)
    (h : strContains s "okta.com/signin" = true) : strContains s "signin" = true := by
  have hd : ("okta.com/signin" : String).data
      = ("okta.com/" : String).data ++ ("signin" : String).data := by decide
  unfold strContains at h ⊢
  rw [hd] at h
  exact containsSub_append_right _ _ _ h

/-! ## Lemmas: fault-flag lists -/

theorem headD_false_of_all {fs : List Bool} (h : ∀ b ∈ fs, b = false) :
    fs.headD false = false := by
  cases fs with
  | nil => rfl
  | cons a t => exact h a (List.mem_cons_self a t)

theorem tail_all_false {fs : List Bool} (h : ∀ b ∈ fs, b = false) :
    ∀ b ∈ fs.tail, b = false := by
  cases fs with
  | nil => simp
  | cons a t => exact fun b hb => h b (List.mem_cons_of_mem a hb)

/-! ## Lemmas: shapes of the actions the loops issue -/

theorem usernameFillLoop_actions (inputs : List InputField) (u : String) :
    ∀ (cands : List (String × (InputField → Bool))) (fs : List Bool),
      ∀ a ∈ (usernameFillLoop inputs u cands fs).2,
        ∃ nm, nm ∈ cands.map Prod.fst ∧ a = PageAction.fill nm u := by
  intro cands
  induction cands with
  | nil =>
    intro fs a ha
    simp [usernameFillLoop] at ha
  | cons cd rest ih =>
    obtain ⟨nm, p⟩ := cd
    intro fs a ha
    by_cases hc : 0 < (inputs.filter p).length
    · cases hf : fs.headD false with
      | false =>
        simp only [usernameFillLoop, if_pos hc, hf, Bool.false_eq_true, if_false,
          List.mem_singleton] at ha
        exact ⟨nm, by simp, ha⟩
      | true =>
        simp only [usernameFillLoop, if_pos hc, hf, if_true] at ha
        rcases List.mem_cons.mp ha with rfl | hmem
        · exact ⟨nm, by simp, rfl⟩
        · obtain ⟨nm', h1, h2⟩ := ih fs.tail a hmem
          exact ⟨nm', by simp [h1], h2⟩
    · simp only [usernameFillLoop, if_neg hc] at ha
      obtain ⟨nm', h1, h2⟩ := ih fs.tail a ha
      exact ⟨nm', by simp [h1], h2⟩

theorem passwordFillLoop_actions (inputs : List InputField) (pwd : String) :
    ∀ (cands : List (String × (InputField → Bool))) (fs : List Bool),
      ∀ a ∈ (passwordFillLoop inputs pwd cands fs).2.1,
        ∃ nm, nm ∈ cands.map Prod.fst ∧ a = PageAction.fill nm pwd := by
  intro cands
  induction cands with
  | nil =>
    intro fs a ha
    simp [passwordFillLoop] at ha
  | cons cd rest ih =>
    obtain ⟨nm, p⟩ := cd
    intro fs a ha
    by_cases hc : 0 < (inputs.filter p).length
    · cases hf : fs.headD false with
      | false =>
        simp only [passwordFillLoop, if_pos hc, hf, Bool.false_eq_true, if_false,
          List.mem_singleton] at ha
        exact ⟨nm, by simp, ha⟩
      | true =>
        simp only [passwordFillLoop, if_pos hc, hf, if_true] at ha
        rcases List.mem_cons.mp ha with rfl | hmem
        · exact ⟨nm, by simp, rfl⟩
        · obtain ⟨nm', h1, h2⟩ := ih fs.tail a hmem
          exact ⟨nm', by simp [h1], h2⟩
    · simp only [passwordFillLoop, if_neg hc] at ha
      obtain ⟨nm', h1, h2⟩ := ih fs.tail a ha
      exact ⟨nm', by simp [h1], h2⟩

theorem submitClickLoop_actions (controls : List SubmitControl) :
    ∀ (cands : List (String × (SubmitControl → Bool))) (fs : List Bool),
      ∀ a ∈ (submitClickLoop controls cands fs).2.1,
        ∃ nm, nm ∈ cands.map Prod.fst ∧ a = PageAction.click nm := by
  intro cands
  induction cands with
  | nil =>
    intro fs a ha
    simp [submitClickLoop] at ha
  | cons cd rest ih =>
    obtain ⟨nm, p⟩ := cd
    intro fs a ha
    by_cases hc : 0 < (controls.filter p).length
    · cases hf : fs.headD false with
      | false =>
        simp only [submitClickLoop, if_pos hc, hf, Bool.false_eq_true, if_false,
          List.mem_singleton] at ha
        exact ⟨nm, by simp, ha⟩
      | true =>
        simp only [submitClickLoop, if_pos hc, hf, if_true] at ha
        rcases List.mem_cons.mp ha with rfl | hmem
        · exact ⟨nm, by simp, rfl⟩
        · obtain ⟨nm', h1, h2⟩ := ih fs.tail a hmem
          exact ⟨nm', by simp [h1], h2⟩
    · simp only [submitClickLoop, if_neg hc] at ha
      obtain ⟨nm', h1, h2⟩ := ih fs.tail a ha
      exact ⟨nm', by simp [h1], h2⟩

/-! ## Lemmas: fault-free loops issue at most one action -/

theorem passwordFillLoop_noFault (inputs : List InputField) (pwd : String) :
    ∀ (cands : List (String × (InputField → Bool))) (fs : List Bool),
      (∀ b ∈ fs, b = false) →
      (passwordFillLoop inputs pwd cands fs).2.1.length ≤ 1
      ∧ ((passwordFillLoop inputs pwd cands fs).2.2 = false →
          (passwordFillLoop inputs pwd cands fs).2.1 = []) := by
  intro cands
  induction cands with
  | nil =>
    intro fs _
    simp [passwordFillLoop]
  | cons cd rest ih =>
    obtain ⟨nm, p⟩ := cd
    intro fs hfs
    by_cases hc : 0 < (inputs.filter p).length
    · simp only [passwordFillLoop, if_pos hc, headD_false_of_all hfs,
        Bool.false_eq_true, if_false]
      exact ⟨by simp, by simp⟩
    · simp only [passwordFillLoop, if_neg hc]
      exact ih fs.tail (tail_all_false hfs)

theorem submitClickLoop_noFault (controls : List SubmitControl) :
    ∀ (cands : List (String × (SubmitControl → Bool))) (fs : List Bool),
      (∀ b ∈ fs, b = false) →
      (submitClickLoop controls cands fs).2.1.length ≤ 1
      ∧ ((submitClickLoop controls cands fs).2.2 = false →
          (submitClickLoop controls cands fs).2.1 = []) := by
  intro cands
  induction cands with
  | nil =>
    intro fs _
    simp [submitClickLoop]
  | cons cd rest ih =>
    obtain ⟨nm, p⟩ := cd
    intro fs hfs
    by_cases hc : 0 < (controls.filter p).length
    · simp only [submitClickLoop, if_pos hc, headD_false_of_all hfs,
        Bool.false_eq_true, if_false]
      exact ⟨by simp, by simp⟩
    · simp only [submitClickLoop, if_neg hc]
      exact ih fs.tail (tail_all_false hfs)

/-! ## Lemmas: phase-level action classification -/

theorem usernameNames_not_pwd :
    ∀ nm ∈ usernameSelectors.map Prod.fst, pwdSelectorNames.contains nm = false := by
  decide

theorem pwdNames_contain_self :
    ∀ nm ∈ passwordSelectors.map Prod.fst, pwdSelectorNames.contains nm = true := by
  decide

/-- Every action the fill phase issues is a fill. -/
theorem fillPhase_actions_isFill (e : Env) :
    ∀ a ∈ (fillPhase e).2.1, isFill a = true := by
  intro a ha
  unfold fillPhase at ha
  simp only [List.mem_append] at ha
  rcases ha with ha | ha
  · by_cases hu : (e.username.getD "") == ""
    · simp [hu] at ha
    · simp only [hu, Bool.false_eq_true, if_false] at ha
      obtain ⟨nm, -, rfl⟩ := usernameFillLoop_actions e.inputs _ usernameSelectors
        e.userFillFaults a ha
      rfl
  · obtain ⟨nm, -, rfl⟩ := passwordFillLoop_actions e.inputs e.password passwordSelectors
      e.pwdFillFaults a ha
    rfl

/-- No action of the fill phase is a submit action. -/
theorem fillPhase_filter_isSubmitAct (e : Env) :
    (fillPhase e).2.1.filter isSubmitAct = [] := by
  rw [List.filter_eq_nil_iff]
  intro a ha
  have := fillPhase_actions_isFill e a ha
  cases a with
  | fill nm v => simp [isSubmitAct]
  | click nm => simp [isFill] at this
  | press k => simp [isFill] at this

/-- The password fills of the fill phase are those of the password loop. -/
theorem fillPhase_filter_isPwdFill (e : Env) :
    (fillPhase e).2.1.filter isPwdFill
      = ((passwordFillLoop e.inputs e.password passwordSelectors
          e.pwdFillFaults).2.1.filter isPwdFill) := by
  unfold fillPhase
  simp only [List.filter_append]
  have hu : (if (e.username.getD "") == "" then (([], []) : List String × List PageAction)
      else usernameFillLoop e.inputs (e.username.getD "") usernameSelectors
        e.userFillFaults).2.filter isPwdFill = [] := by
    by_cases hc : (e.username.getD "") == ""
    · simp [hc]
    · simp only [hc, Bool.false_eq_true, if_false]
      rw [List.filter_eq_nil_iff]
      intro a ha
      obtain ⟨nm, hnm, rfl⟩ := usernameFillLoop_actions e.inputs _ usernameSelectors
        e.userFillFaults a ha
      simp only [isPwdFill, usernameNames_not_pwd nm hnm]
      simp
  rw [hu, List.nil_append]

/-- No action of the submit phase is a password fill. -/
theorem submitPhase_filter_isPwdFill (e : Env) :
    (submitPhase e).2.filter isPwdFill = [] := by
  unfold submitPhase
  have hcl : ∀ a ∈ (submitClickLoop e.controls submitSelectors e.clickFaults).2.1,
      isPwdFill a = false := by
    intro a ha
    obtain ⟨nm, -, rfl⟩ := submitClickLoop_actions e.controls submitSelectors
      e.clickFaults a ha
    rfl
  by_cases hs : (submitClickLoop e.controls submitSelectors e.clickFaults).2.2
  · simp only [hs, if_true]
    rw [List.filter_eq_nil_iff]
    intro a ha
    simp [hcl a ha]
  · simp only [hs, Bool.false_eq_true, if_false]
    rw [List.filter_eq_nil_iff]
    intro a ha
    rcases List.mem_append.mp ha with ha | ha
    · simp [hcl a ha]
    · rcases List.mem_singleton.mp ha with rfl
      simp [isPwdFill]

/-- With no click faults, the submit phase issues at most one submit action. -/
theorem submitPhase_submit_len (e : Env) (hc : ∀ b ∈ e.clickFaults, b = false) :
    ((submitPhase e).2.filter isSubmitAct).length ≤ 1 := by
  unfold submitPhase
  obtain ⟨hlen, hnone⟩ := submitClickLoop_noFault e.controls submitSelectors e.clickFaults hc
  by_cases hs : (submitClickLoop e.controls submitSelectors e.clickFaults).2.2
  · simp only [hs, if_true]
    exact le_trans (List.length_filter_le _ _) hlen
  · simp only [hs, Bool.false_eq_true, if_false]
    rw [hnone (by simpa using hs), List.nil_append]
    simp [isSubmitAct]

/-! ## Lemmas: the password loop depends on the secret only through the
values of the password-fill actions -/

theorem passwordFillLoop_secret (inputs : List InputField) (p₁ p₂ : String) :
    ∀ (cands : List (String × (InputField → Bool))) (fs : List Bool),
      (∀ nm ∈ cands.map Prod.fst, pwdSelectorNames.contains nm = true) →
      (passwordFillLoop inputs p₁ cands fs).1 = (passwordFillLoop inputs p₂ cands fs).1
      ∧ (passwordFillLoop inputs p₁ cands fs).2.2 = (passwordFillLoop inputs p₂ cands fs).2.2
      ∧ (passwordFillLoop inputs p₁ cands fs).2.1.map redactSecret
          = (passwordFillLoop inputs p₂ cands fs).2.1.map redactSecret := by
  intro cands
  induction cands with
  | nil =>
    intro fs _
    simp [passwordFillLoop]
  | cons cd rest ih =>
    obtain ⟨nm, p⟩ := cd
    intro fs hn
    have hnm : pwdSelectorNames.contains nm = true := hn nm (by simp)
    have hrest : ∀ nm' ∈ rest.map Prod.fst, pwdSelectorNames.contains nm' = true :=
      fun nm' h => hn nm' (by simp [h])
    have hred : ∀ v, redactSecret (PageAction.fill nm v) = PageAction.fill nm "" := by
      intro v
      simp only [redactSecret]
      rw [hnm]
      simp
    by_cases hc : 0 < (inputs.filter p).length
    · cases hf : fs.headD false with
      | false =>
        simp only [passwordFillLoop, if_pos hc, hf, Bool.false_eq_true, if_false,
          List.map_cons, List.map_nil, hred]
        simp
      | true =>
        obtain ⟨h1, h2, h3⟩ := ih fs.tail hrest
        simp only [passwordFillLoop, if_pos hc, hf, if_true, List.map_cons, hred]
        exact ⟨by rw [h1], h2, by rw [h3]⟩
    · simp only [passwordFillLoop, if_neg hc]
      exact ih fs.tail hrest


/-- C9: secret non-interference.  Two runs whose environments agree on every
field except the credential secret produce identical output lines (stdout and
stderr), identical results, and identical action traces up to the values
carried by password-selector fill actions: the secret flows only into
password fills and never into any diagnostic or progress output line. -/
theorem c9_secret_noninterference (e₁ e₂ : Env)
    (h : e₂ = { e₁ with password := e₂.password }) :
    runOutput e₁ = runOutput e₂
    ∧ (runActions e₁).map redactSecret = (runActions e₂).map redactSecret
    ∧ aws_sso_login e₁ = aws_sso_login e₂ := by
  obtain ⟨v1, u01, u1, fu1, pt1, in1, ct1, fr1, un1, pw1, hl1, nv1, ow1, fw1, uf1,
    pf1, cf1, tf1, ie1, af1, fe1, sa1, ni1⟩ := e₁
  obtain ⟨v2, u02, u2, fu2, pt2, in2, ct2, fr2, un2, pw2, hl2, nv2, ow2, fw2, uf2,
    pf2, cf2, tf2, ie2, af2, fe2, sa2, ni2⟩ := e₂
  simp only [Env.mk.injEq] at h
  obtain ⟨rfl, rfl, rfl, rfl, rfl, rfl, rfl, rfl, rfl, -, rfl, rfl, rfl, rfl, rfl,
    rfl, rfl, rfl, rfl, rfl, rfl, rfl, rfl⟩ := h
  obtain ⟨a1, a2, a3⟩ := passwordFillLoop_secret in2 pw1 pw2 passwordSelectors pf2
    pwdNames_contain_self
  have hout : (bodyRun ⟨v2, u02, u2, fu2, pt2, in2, ct2, fr2, un2, pw1, hl2, nv2,
      ow2, fw2, uf2, pf2, cf2, tf2, ie2, af2, fe2, sa2, ni2⟩).out
      = (bodyRun ⟨v2, u02, u2, fu2, pt2, in2, ct2, fr2, un2, pw2, hl2, nv2, ow2,
      fw2, uf2, pf2, cf2, tf2, ie2, af2, fe2, sa2, ni2⟩).out := by
    simp only [bodyRun, fillPhase, oktaLines, submitPhase, confirmPhase, notFoundOut,
      diagDump, needsAuthentication, apply_ite RunOut.out]
    rw [a1, a2]
  have hres : (bodyRun ⟨v2, u02, u2, fu2, pt2, in2, ct2, fr2, un2, pw1, hl2, nv2,
      ow2, fw2, uf2, pf2, cf2, tf2, ie2, af2, fe2, sa2, ni2⟩).result
      = (bodyRun ⟨v2, u02, u2, fu2, pt2, in2, ct2, fr2, un2, pw2, hl2, nv2, ow2,
      fw2, uf2, pf2, cf2, tf2, ie2, af2, fe2, sa2, ni2⟩).result := by
    simp only [bodyRun, fillPhase, oktaLines, submitPhase, confirmPhase, notFoundOut,
      diagDump, needsAuthentication, apply_ite RunOut.result]
    rw [a2]
  have hact : ((bodyRun ⟨v2, u02, u2, fu2, pt2, in2, ct2, fr2, un2, pw1, hl2, nv2,
      ow2, fw2, uf2, pf2, cf2, tf2, ie2, af2, fe2, sa2, ni2⟩).actions).map redactSecret
      = ((bodyRun ⟨v2, u02, u2, fu2, pt2, in2, ct2, fr2, un2, pw2, hl2, nv2, ow2,
      fw2, uf2, pf2, cf2, tf2, ie2, af2, fe2, sa2, ni2⟩).actions).map redactSecret := by
    simp only [bodyRun, fillPhase, oktaLines, submitPhase, confirmPhase, notFoundOut,
      diagDump, needsAuthentication, apply_ite RunOut.actions,
      apply_ite (List.map redactSecret), List.map_append]
    rw [a2, a3]
  refine ⟨?_, ?_, ?_⟩
  · simp only [runOutput]
    rw [hres, hout]
  · simp only [runActions]
    exact hact
  · simp only [aws_sso_login]
    rw [hres]

/-! ## Claim theorems -/

/-- Auxiliary for C1/C5: a lowercased URL without `signin` also lacks
`okta.com/signin`. -/
theorem strContains_okta_of_signin_false (s : String)
    (hs : strContains s "signin" = false) :
    strContains s "okta.com/signin" = false := by
  cases h : strContains s "okta.com/signin" with
  | false => rfl
  | true => exact absurd (strContains_signin_of_okta s h) (by simp [hs])

/-- C1: for every page observation with zero password-type input fields and a
current URL containing neither a `login` nor a `signin` fragment, the
needs-authentication predicate is false and the run issues no page action at
all — in particular no credential fill is attempted. -/
theorem c1_no_password_no_login_url_is_already_authenticated (e : Env)
    (hp : passwordTypeCount e.inputs = 0)
    (hl : strContains (lowerStr e.url) "login" = false)
    (hs : strContains (lowerStr e.url) "signin" = false) :
    needsAuthentication e = false ∧ runActions e = [] := by
  have hok : strContains (lowerStr e.url) "okta.com/signin" = false :=
    strContains_okta_of_signin_false _ hs
  have hna : needsAuthentication e = false := by
    simp only [needsAuthentication, hp, hok, hl]
    decide
  refine ⟨hna, ?_⟩
  unfold runActions
  cases hnv : e.navFault with
  | true => simp [bodyRun, hnv]
  | false => simp [bodyRun, hnv, hna]

/-- C1 witness: a concrete already-authenticated environment. -/
theorem c1_witness :
    passwordTypeCount plainEnv.inputs = 0
    ∧ strContains (lowerStr plainEnv.url) "login" = false
    ∧ strContains (lowerStr plainEnv.url) "signin" = false
    ∧ (needsAuthentication plainEnv = false ∧ runActions plainEnv = []) :=
  ⟨rfl, by decide, by decide,
   c1_no_password_no_login_url_is_already_authenticated plainEnv rfl (by decide) (by decide)⟩

/-- C2: for every page observation with at least one visible password-type
input field, the needs-authentication predicate is true — the classification
never decides "already authenticated". -/
theorem c2_visible_password_field_needs_authentication (e : Env)
    (h : ∃ f ∈ e.inputs, f.ty = "password" ∧ f.visible = true) :
    needsAuthentication e = true := by
  obtain ⟨f, hf, hty, -⟩ := h
  have hmem : f ∈ e.inputs.filter (fun g => g.ty == "password") :=
    List.mem_filter.mpr ⟨hf, by simp [hty]⟩
  have hpos : 0 < passwordTypeCount e.inputs := List.length_pos_of_mem hmem
  simp only [needsAuthentication, decide_eq_true hpos, Bool.true_or]

/-- C2 witness: a page with one visible password field. -/
theorem c2_witness :
    (∃ f ∈ wC2env.inputs, f.ty = "password" ∧ f.visible = true)
    ∧ needsAuthentication wC2env = true :=
  ⟨⟨pwField, List.mem_singleton.mpr rfl, rfl, rfl⟩,
   c2_visible_password_field_needs_authentication wC2env
     ⟨pwField, List.mem_singleton.mpr rfl, rfl, rfl⟩⟩

/-- C3 counterexample: on a page where `input[name=password]` matches a
hidden input and `input[type=password]` matches the real field, the fill on
the first candidate times out (the `except PlaywrightTimeout: continue` at
source lines 190–191) and the loop then tries the later candidate — the
credential ends up in the element matched by `input[type=password]`, and a
later candidate is tried even though the first one matched. -/
theorem c3_counterexample :
    0 < (xC3env.inputs.filter (fun f => f.name == "password")).length
    ∧ 0 < (xC3env.inputs.filter (fun f => f.ty == "password")).length
    ∧ runActions xC3env
        = [PageAction.fill "input[name=password]" "hunter2",
           PageAction.fill "input[type=password]" "hunter2",
           PageAction.press "Enter"] :=
  ⟨by decide, by decide, by decide⟩

/-- C3 (amended): provided no password-fill attempt times out, first-match
wins: when both `input[name=password]` and `input[type=password]` match, the
only password-fill action of the run targets `input[name=password]`, and no
later candidate is tried. -/
theorem c3_amended (e : Env)
    (hnv : e.navFault = false)
    (hff : ∀ b ∈ e.pwdFillFaults, b = false)
    (hname : 0 < (e.inputs.filter (fun f => f.name == "password")).length)
    (htype : 0 < (e.inputs.filter (fun f => f.ty == "password")).length) :
    (runActions e).filter isPwdFill
      = [PageAction.fill "input[name=password]" e.password] := by
  have hna : needsAuthentication e = true := by
    have hpos : 0 < passwordTypeCount e.inputs := htype
    simp only [needsAuthentication, decide_eq_true hpos, Bool.true_or]
  have hloop : passwordFillLoop e.inputs e.password passwordSelectors e.pwdFillFaults
      = (["Found password field with selector: " ++ "input[name=password]"],
         [PageAction.fill "input[name=password]" e.password], true) := by
    simp only [passwordSelectors, passwordFillLoop, if_pos hname,
      headD_false_of_all hff, Bool.false_eq_true, if_false]
  have hfill : (fillPhase e).2.2 = true := by
    simp only [fillPhase, hloop]
  have hbody : (bodyRun e).actions = (fillPhase e).2.1 ++ (submitPhase e).2 := by
    simp only [bodyRun, hnv, Bool.false_eq_true, if_false, hna, if_true, hfill]
  have hone : isPwdFill (PageAction.fill "input[name=password]" e.password) = true := by
    show pwdSelectorNames.contains "input[name=password]" = true
    decide
  unfold runActions
  rw [hbody, List.filter_append, fillPhase_filter_isPwdFill, hloop,
    submitPhase_filter_isPwdFill, List.append_nil]
  simp [List.filter_cons, hone]

/-- C3 witness for the amended claim: both candidates match, no faults. -/
theorem c3_amended_witness :
    wC3env.navFault = false
    ∧ (∀ b ∈ wC3env.pwdFillFaults, b = false)
    ∧ 0 < (wC3env.inputs.filter (fun f => f.name == "password")).length
    ∧ 0 < (wC3env.inputs.filter (fun f => f.ty == "password")).length
    ∧ (runActions wC3env).filter isPwdFill
        = [PageAction.fill "input[name=password]" wC3env.password] :=
  ⟨rfl, fun b hb => absurd hb (List.not_mem_nil b), by decide, by decide,
   c3_amended wC3env rfl (fun b hb => absurd hb (List.not_mem_nil b))
     (by decide) (by decide)⟩

/-- C4: conservative post-submit verdict.  In every run that reaches the
submit step (needs-authentication, password filled), if no success-indicator
fragment appears within its wait window and the final URL still contains a
`signin` or `login` fragment, `aws_sso_login` returns false. -/
theorem c4_conservative_failure (e : Env)
    (hnv : e.navFault = false)
    (hna : needsAuthentication e = true)
    (hfl : (fillPhase e).2.2 = true)
    (hsu : e.successAppears = false)
    (hurl : strContains (lowerStr e.finalUrl) "signin" = true
        ∨ strContains (lowerStr e.finalUrl) "login" = true) :
    aws_sso_login e = false := by
  have hcp : (confirmPhase e).2 = false := by
    unfold confirmPhase
    rw [hsu]
    simp only [Bool.false_eq_true, if_false]
    cases hni : e.netIdleTimeout with
    | true => simp
    | false =>
      simp only [Bool.false_eq_true, if_false]
      rcases hurl with h | h
      · simp [h]
      · simp [h]
  simp only [aws_sso_login, bodyRun, hnv, Bool.false_eq_true, if_false, hna,
    if_true, hfl]
  exact hcp

/-- C4 witness: password form filled and submitted, no success indicator,
final URL still on `signin`. -/
theorem c4_witness :
    wC4env.navFault = false
    ∧ needsAuthentication wC4env = true
    ∧ (fillPhase wC4env).2.2 = true
    ∧ wC4env.successAppears = false
    ∧ strContains (lowerStr wC4env.finalUrl) "signin" = true
    ∧ aws_sso_login wC4env = false :=
  ⟨rfl, by decide, by decide, rfl, by decide,
   c4_conservative_failure wC4env rfl (by decide) (by decide) rfl
     (Or.inl (by decide))⟩

/-- C5 counterexample: the verification URL redirected to a non-login URL
with no password field, no fill or submit action is performed — but the
post-submit network-idle wait times out (caught at source line 296) and the
run returns failure, not the success the claim demands. -/
theorem c5_counterexample :
    passwordTypeCount xC5env.inputs = 0
    ∧ strContains (lowerStr xC5env.url) "login" = false
    ∧ strContains (lowerStr xC5env.url) "signin" = false
    ∧ runActions xC5env = []
    ∧ aws_sso_login xC5env = false :=
  ⟨rfl, by decide, by decide, by decide, by decide⟩

/-- C5 (amended): already-authenticated short-circuit.  When the page shows
no password field and a non-login URL, zero fill and zero submit actions are
performed, and the result is success provided the confirmation phase can
conclude positively: a success indicator appears, or the network-idle wait
does not time out and the final URL still lacks `signin`/`login` fragments. -/
theorem c5_amended (e : Env)
    (hnv : e.navFault = false)
    (hp : passwordTypeCount e.inputs = 0)
    (hl : strContains (lowerStr e.url) "login" = false)
    (hs : strContains (lowerStr e.url) "signin" = false)
    (hconf : e.successAppears = true
        ∨ (e.netIdleTimeout = false
           ∧ strContains (lowerStr e.finalUrl) "signin" = false
           ∧ strContains (lowerStr e.finalUrl) "login" = false)) :
    aws_sso_login e = true ∧ runActions e = [] := by
  have hok : strContains (lowerStr e.url) "okta.com/signin" = false :=
    strContains_okta_of_signin_false _ hs
  have hna : needsAuthentication e = false := by
    simp only [needsAuthentication, hp, hok, hl]
    decide
  have hcp : (confirmPhase e).2 = true := by
    unfold confirmPhase
    rcases hconf with h | ⟨h1, h2, h3⟩
    · simp [h]
    · cases hsu : e.successAppears with
      | true => simp
      | false => simp [h1, h2, h3]
  constructor
  · simp only [aws_sso_login, bodyRun, hnv, Bool.false_eq_true, if_false, hna]
    exact hcp
  · unfold runActions
    simp [bodyRun, hnv, hna]

/-- C5 witness for the amended claim: the benign already-authenticated run. -/
theorem c5_amended_witness :
    plainEnv.navFault = false
    ∧ passwordTypeCount plainEnv.inputs = 0
    ∧ strContains (lowerStr plainEnv.url) "login" = false
    ∧ strContains (lowerStr plainEnv.url) "signin" = false
    ∧ plainEnv.netIdleTimeout = false
    ∧ (aws_sso_login plainEnv = true ∧ runActions plainEnv = []) :=
  ⟨rfl, rfl, by decide, by decide, rfl,
   c5_amended plainEnv rfl rfl (by decide) (by decide)
     (Or.inr ⟨rfl, by decide, by decide⟩)⟩

/-- C6: the outermost attempt boundary.  The function always yields a plain
Boolean: any escaped collaborator fault is converted to the failure value,
an ordinary return is passed through, and the process exit signal is success
(0) exactly when the function returned true. -/
theorem c6_fault_boundary (e : Env) :
    ((bodyRun e).result = Except.error () → aws_sso_login e = false)
    ∧ (∀ b, (bodyRun e).result = Except.ok b → aws_sso_login e = b)
    ∧ (mainExitCode e = 0 ↔ aws_sso_login e = true)
    ∧ (mainExitCode e = 1 ↔ aws_sso_login e = false) := by
  refine ⟨?_, ?_, ?_, ?_⟩
  · intro h
    simp [aws_sso_login, h]
  · intro b h
    simp [aws_sso_login, h]
  · unfold mainExitCode
    cases h : aws_sso_login e with
    | true => simp
    | false => simp
  · unfold mainExitCode
    cases h : aws_sso_login e with
    | true => simp
    | false => simp

/-- C6 witness: a navigation fault is caught and becomes exit code 1. -/
theorem c6_witness :
    (bodyRun xC6env).result = Except.error ()
    ∧ aws_sso_login xC6env = false
    ∧ mainExitCode xC6env = 1 :=
  ⟨rfl, (c6_fault_boundary xC6env).1 rfl,
   ((c6_fault_boundary xC6env).2.2.2).mpr ((c6_fault_boundary xC6env).1 rfl)⟩

/-- C7 counterexample: in visible mode, when authentication is needed but no
password candidate matches, the code prints the manual-login prompt and then
returns success immediately (source lines 229–232) — it performs no further
page action and never re-checks state.  On this environment the as-if-filled
confirmation verdict would be failure (no success indicator, URL still on
`login`), yet the run reports success: the claimed behavior of re-checking state and
proceeding as if the credential had been filled is false on the code. -/
theorem c7_counterexample :
    xC7env.headless = false
    ∧ needsAuthentication xC7env = true
    ∧ (fillPhase xC7env).2.2 = false
    ∧ aws_sso_login xC7env = true
    ∧ runActions xC7env = []
    ∧ (confirmPhase xC7env).2 = false
    ∧ "Press Enter after manually logging in..." ∈ runOutput xC7env :=
  ⟨rfl, by decide, by decide, by decide, by decide, by decide, by decide⟩

/-- C7 (amended): in visible mode, when authentication is needed and no
password candidate fill completes, the driver waits at the manual-completion
prompt and then returns success unconditionally — without re-checking page
state and without issuing any submit or confirmation action (every issued
action is a fill). -/
theorem c7_amended (e : Env)
    (hnv : e.navFault = false) (ht : e.titleFault = false)
    (hna : needsAuthentication e = true)
    (hnf : (fillPhase e).2.2 = false)
    (hvis : e.headless = false) :
    aws_sso_login e = true
    ∧ "Press Enter after manually logging in..." ∈ runOutput e
    ∧ (runActions e).all isFill = true := by
  have hb : bodyRun e
      = ⟨((("Navigating to: " ++ e.verificationUrl) :: oktaLines e)
            ++ (fillPhase e).1 ++ notFoundOut e
            ++ ["Press Enter after manually logging in..."]),
         (fillPhase e).2.1, Except.ok true⟩ := by
    simp only [bodyRun, hnv, Bool.false_eq_true, if_false, hna, if_true, hnf,
      ht, hvis]
  refine ⟨?_, ?_, ?_⟩
  · unfold aws_sso_login
    rw [hb]
  · unfold runOutput
    rw [hb]
    simp [List.mem_append]
  · unfold runActions
    rw [hb]
    rw [List.all_eq_true]
    intro a ha
    exact fillPhase_actions_isFill e a ha

/-- C7 witness for the amended claim. -/
theorem c7_amended_witness :
    xC7env.navFault = false ∧ xC7env.titleFault = false
    ∧ needsAuthentication xC7env = true
    ∧ (fillPhase xC7env).2.2 = false
    ∧ xC7env.headless = false
    ∧ (aws_sso_login xC7env = true
       ∧ "Press Enter after manually logging in..." ∈ runOutput xC7env
       ∧ (runActions xC7env).all isFill = true) :=
  ⟨rfl, rfl, by decide, by decide, rfl,
   c7_amended xC7env rfl rfl (by decide) (by decide) rfl⟩

/-- C8 counterexample: a run in which two submit actions are issued.  The
click on `button[type=submit]` is issued and times out (caught at source
lines 255–256), no other submit candidate matches, so the Enter-key fallback
(line 260) fires as a second submit action — refuting "at most one submit
action (one click or one fallback key press) is ever issued". -/
theorem c8_counterexample :
    ((runActions xC8env).filter isSubmitAct).length = 2
    ∧ runActions xC8env
        = [PageAction.fill "input[type=password]" "hunter2",
           PageAction.click "button[type=submit]",
           PageAction.press "Enter"] :=
  ⟨by decide, by decide⟩

/-- C8 (amended): provided no fill and no click attempt times out, at most
one password-fill action and at most one submit action (click or fallback
key press) are issued per invocation; a timed-out attempt may be followed by
the next candidate (or the Enter fallback), but each candidate is tried at
most once and there is no retry loop around incorrect credentials. -/
theorem c8_amended (e : Env)
    (hpf : ∀ b ∈ e.pwdFillFaults, b = false)
    (hcf : ∀ b ∈ e.clickFaults, b = false) :
    ((runActions e).filter isPwdFill).length ≤ 1
    ∧ ((runActions e).filter isSubmitAct).length ≤ 1 := by
  have hpl : (((passwordFillLoop e.inputs e.password passwordSelectors
      e.pwdFillFaults).2.1).filter isPwdFill).length ≤ 1 :=
    le_trans (List.length_filter_le _ _)
      (passwordFillLoop_noFault e.inputs e.password passwordSelectors
        e.pwdFillFaults hpf).1
  unfold runActions
  cases hnv : e.navFault with
  | true => simp [bodyRun, hnv]
  | false =>
    cases hna : needsAuthentication e with
    | false => simp [bodyRun, hnv, hna]
    | true =>
      cases hfl : (fillPhase e).2.2 with
      | true =>
        have hb : (bodyRun e).actions = (fillPhase e).2.1 ++ (submitPhase e).2 := by
          simp only [bodyRun, hnv, Bool.false_eq_true, if_false, hna, if_true, hfl]
        rw [hb, List.filter_append, List.filter_append]
        constructor
        · rw [fillPhase_filter_isPwdFill, submitPhase_filter_isPwdFill,
            List.append_nil]
          exact hpl
        · rw [fillPhase_filter_isSubmitAct, List.nil_append]
          exact submitPhase_submit_len e hcf
      | false =>
        have hb : (bodyRun e).actions = (fillPhase e).2.1 := by
          cases ht : e.titleFault with
          | true =>
            simp only [bodyRun, hnv, Bool.false_eq_true, if_false, hna, if_true,
              hfl, ht]
          | false =>
            cases hh : e.headless with
            | true =>
              simp only [bodyRun, hnv, Bool.false_eq_true, if_false, hna, if_true,
                hfl, ht, hh]
            | false =>
              simp only [bodyRun, hnv, Bool.false_eq_true, if_false, hna, if_true,
                hfl, ht, hh]
        rw [hb]
        constructor
        · rw [fillPhase_filter_isPwdFill]
          exact hpl
        · rw [fillPhase_filter_isSubmitAct]
          simp
/-- C8 witness for the amended claim: one fill, one click, nothing else. -/
theorem c8_amended_witness :
    (∀ b ∈ wC8env.pwdFillFaults, b = false)
    ∧ (∀ b ∈ wC8env.clickFaults, b = false)
    ∧ ((runActions wC8env).filter isPwdFill).length ≤ 1
    ∧ ((runActions wC8env).filter isSubmitAct).length ≤ 1 :=
  ⟨fun b hb => absurd hb (List.not_mem_nil b),
   fun b hb => absurd hb (List.not_mem_nil b),
   (c8_amended wC8env (fun b hb => absurd hb (List.not_mem_nil b))
     (fun b hb => absurd hb (List.not_mem_nil b))).1,
   (c8_amended wC8env (fun b hb => absurd hb (List.not_mem_nil b))
     (fun b hb => absurd hb (List.not_mem_nil b))).2⟩

/-- C9 witness: two concrete runs differing only in the secret. -/
theorem c9_witness :
    runOutput plainEnv = runOutput wC9env
    ∧ (runActions plainEnv).map redactSecret = (runActions wC9env).map redactSecret
    ∧ aws_sso_login plainEnv = aws_sso_login wC9env :=
  c9_secret_noninterference plainEnv wC9env rfl

/-- C10: on the could-not-find-password-field path, faults while enumerating
input-element attributes or frame URLs are swallowed by their local handlers:
the returned result is unchanged under any combination of those fault flags,
and it is failure in headless mode and success (manual handoff) in visible
mode. -/
theorem c10_diagnostic_faults_swallowed (e : Env) (b c : Bool) (fs : List Bool)
    (hnv : e.navFault = false) (ht : e.titleFault = false)
    (hna : needsAuthentication e = true)
    (hnf : (fillPhase e).2.2 = false) :
    aws_sso_login { e with inputEnumFault := b, attrFaults := fs, frameEnumFault := c }
      = aws_sso_login e
    ∧ aws_sso_login e = !e.headless := by
  have key : ∀ e' : Env, e'.navFault = false → e'.titleFault = false →
      needsAuthentication e' = true → (fillPhase e').2.2 = false →
      aws_sso_login e' = !e'.headless := by
    intro e' h1 h2 h3 h4
    cases hh : e'.headless with
    | true =>
      simp [aws_sso_login, bodyRun, h1, h2, h3, h4, hh]
    | false =>
      simp [aws_sso_login, bodyRun, h1, h2, h3, h4, hh]
  have h2 : aws_sso_login { e with inputEnumFault := b, attrFaults := fs, frameEnumFault := c } = !e.headless :=
    key _ hnv ht hna hnf
  have h1 : aws_sso_login e = !e.headless := key e hnv ht hna hnf
  exact ⟨h2.trans h1.symm, h1⟩

/-- C10 witness: the headless diagnostic path with all enumeration faults
injected. -/
theorem c10_witness :
    wC10env.navFault = false ∧ wC10env.titleFault = false
    ∧ needsAuthentication wC10env = true
    ∧ (fillPhase wC10env).2.2 = false
    ∧ aws_sso_login { wC10env with inputEnumFault := true, attrFaults := [true], frameEnumFault := true } = aws_sso_login wC10env
    ∧ aws_sso_login wC10env = !wC10env.headless :=
  ⟨rfl, rfl, by decide, by decide,
   (c10_diagnostic_faults_swallowed wC10env true true [true] rfl rfl
     (by decide) (by decide)).1,
   (c10_diagnostic_faults_swallowed wC10env true true [true] rfl rfl
     (by decide) (by decide)).2⟩
